import Mathlib

/-!
# radio.c : TEA5767 demo application

Shallow embedding of `src/radio.c`: the shared record `DemoData`, the status
updater `update_i2c_status`, the draw callback `render_callback` and one
iteration of the event loop of `radio_app`.

The chip driver (`TEA5767.h`) and the platform headers (`furi.h`, `gui/gui.h`)
are not part of the repository.  Their constants are collected in `Platform`
and the four driver entry points in `Driver`; every theorem quantifies over
both.
-/

namespace Radio

/-! ## Data model -/

/-- The station that will be tuned is 95.30 MHz (`#define FIX_STATION 9530`). -/
def FIX_STATION : Int := 9530

/-- The enum `RadioState` of radio.c, lines 15-21. -/
inductive RadioState
  | RadioStateNotFound
  | RadioStateFound
  | RadioStateWriteSuccess
  | RadioStateReadSuccess
  | RadioStateWriteReadSuccess
  deriving DecidableEq, Repr

/-- The enum `DemoEventType` of radio.c, lines 23-26. -/
inductive DemoEventType
  | DemoEventTypeTick
  | DemoEventTypeKey
  deriving DecidableEq, Repr

/-- The two fields of the platform's `InputEvent` that radio.c reads; both are C
enums, kept as their integer codes. -/
structure InputEvent where
  type : Int
  key : Int
  deriving DecidableEq, Repr

/-- The struct `DemoEvent` of radio.c, lines 28-31. -/
structure DemoEvent where
  type : DemoEventType
  input : InputEvent
  deriving DecidableEq, Repr

/-- The array `uint8_t registers[5]`: five bytes. -/
structure Registers where
  r0 : Fin 256
  r1 : Fin 256
  r2 : Fin 256
  r3 : Fin 256
  r4 : Fin 256
  deriving DecidableEq, Repr

/-- The struct `DemoData` of radio.c, lines 33-39.  `buffer` is the content of
the `FuriString` the field points to; `address` and `value` are C `int`s. -/
structure DemoData where
  buffer : String
  address : Int
  state : RadioState
  value : Int
  registers : Registers
  deriving DecidableEq, Repr

/-- Constants that radio.c takes from headers outside the repository
(`TEA5767.h`, `furi.h`, `input/input.h`, `gui/canvas.h`), as integer codes. -/
structure Platform where
  TEA5767_ADR : Int
  REG_4_XTAL : Nat
  REG_4_SMUTE : Nat
  FuriStatusOk : Int
  InputTypeShort : Int
  InputKeyBack : Int
  FontPrimary : Int
  AlignCenter : Int

/-! ## The chip driver, as an interface -/

/-- Result of `tea5767_is_device_ready()`. -/
structure ReadyResult (σ : Type) where
  ok : Bool
  drv : σ

/-- Result of `tea5767_init(regs)` and of `tea5767_set_frequency(regs, f)`: the
returned flag and the bytes left in the array that was passed. -/
structure RegsResult (σ : Type) where
  ok : Bool
  registers : Registers
  drv : σ

/-- Result of `tea5767_get_frequency(regs, &value)`: the returned flag, the bytes
left in the array and the integer left in `value`. -/
structure FreqResult (σ : Type) where
  ok : Bool
  registers : Registers
  value : Int
  drv : σ

/-- The four driver entry points that radio.c calls.  `σ` is whatever state the
driver and the chip behind it carry from one call to the next. -/
structure Driver (σ : Type) where
  tea5767_is_device_ready : σ → ReadyResult σ
  tea5767_init : Registers → σ → RegsResult σ
  tea5767_set_frequency : Registers → Int → σ → RegsResult σ
  tea5767_get_frequency : Registers → Int → σ → FreqResult σ

/-- A driver call made by `update_i2c_status`, recorded in call order. -/
inductive DriverCall
  | is_device_ready
  | init (regs : Registers)
  | set_frequency (regs : Registers) (frequency : Int)
  | get_frequency (regs : Registers) (value : Int)
  deriving DecidableEq, Repr

/-! ## update_i2c_status (radio.c, lines 111-136) -/

/-- What one run of `update_i2c_status` leaves behind: the record, the driver
state and the driver calls it made. -/
structure UpdateResult (σ : Type) where
  data : DemoData
  drv : σ
  calls : List DriverCall

/-- The function `update_i2c_status` of radio.c. -/
def update_i2c_status {σ : Type} (P : Platform) (D : Driver σ) (s : σ) (data : DemoData) :
    UpdateResult σ :=
  let d0 : DemoData := { data with address := 0, state := RadioState.RadioStateNotFound }
  let ready := D.tea5767_is_device_ready s
  let c1 := [DriverCall.is_device_ready]
  if ready.ok then
    let d1 : DemoData := { d0 with address := P.TEA5767_ADR, state := RadioState.RadioStateFound }
    let ini := D.tea5767_init d1.registers ready.drv
    let c2 := c1 ++ [DriverCall.init d1.registers]
    let d2 : DemoData := { d1 with registers := ini.registers }
    if ini.ok then
      let d3 : DemoData := { d2 with state := RadioState.RadioStateWriteSuccess }
      let frequency := FIX_STATION
      let setf := D.tea5767_set_frequency d3.registers frequency ini.drv
      let c3 := c2 ++ [DriverCall.set_frequency d3.registers frequency]
      let d4 : DemoData := { d3 with registers := setf.registers }
      if setf.ok then
        let d5 : DemoData := { d4 with state := RadioState.RadioStateWriteSuccess, value := 0 }
        let getf := D.tea5767_get_frequency d5.registers d5.value setf.drv
        let c4 := c3 ++ [DriverCall.get_frequency d5.registers d5.value]
        let d6 : DemoData := { d5 with registers := getf.registers, value := getf.value }
        if getf.ok then
          { data := { d6 with state := RadioState.RadioStateReadSuccess }, drv := getf.drv,
            calls := c4 }
        else
          { data := d6, drv := getf.drv, calls := c4 }
      else
        { data := d4, drv := setf.drv, calls := c3 }
    else
      { data := d2, drv := ini.drv, calls := c2 }
  else
    { data := d0, drv := ready.drv, calls := c1 }

/-! ## render_callback (radio.c, lines 66-108) -/

/-- A call on the canvas. -/
inductive CanvasOp
  | set_font (font : Int)
  | draw_str_aligned (x y : Nat) (horizontal vertical : Int) (str : String)
  deriving DecidableEq, Repr

/-- Left-pads a digit string with `0` to two characters (the `02` of `%02x`). -/
def pad02 (cs : List Char) : List Char :=
  List.replicate (2 - cs.length) '0' ++ cs

/-- The conversion `%02x` applied to an `int`: the value is read as a 32-bit
unsigned and written in lowercase hexadecimal, at least two digits. -/
def fmt_02x (a : Int) : String :=
  String.mk (pad02 (Nat.toDigits 16 (a % 2 ^ 32).toNat))

/-- The conversion `%02X` applied to a `uint8_t`: uppercase hexadecimal, at least
two digits. -/
def fmt_02X (b : Fin 256) : String :=
  String.mk (pad02 ((Nat.toDigits 16 b.val).map Char.toUpper))

/-- The text of `furi_string_printf(buffer, "Address 0x%02x", address)`. -/
def address_line (address : Int) : String :=
  "Address 0x" ++ fmt_02x address

/-- The text of `furi_string_printf(buffer, "registers: %02X%02X%02X%02X%02X", ...)`. -/
def registers_line (r : Registers) : String :=
  "registers: " ++ fmt_02X r.r0 ++ fmt_02X r.r1 ++ fmt_02X r.r2 ++ fmt_02X r.r3 ++ fmt_02X r.r4

/-- The call `canvas_draw_str_aligned(canvas, 64, y, AlignCenter, AlignCenter, str)`. -/
def draw_centered (P : Platform) (y : Nat) (str : String) : CanvasOp :=
  CanvasOp.draw_str_aligned 64 y P.AlignCenter P.AlignCenter str

/-- What one call of `render_callback` leaves behind: the record, the canvas
calls in order, and how many times it released the mutex. -/
structure RenderResult where
  data : DemoData
  canvas : List CanvasOp
  released : Nat
  deriving DecidableEq, Repr

/-- The function `render_callback` of radio.c; `acquire` is the status returned by
`furi_mutex_acquire(mutex, 200)`. -/
def render_callback (P : Platform) (acquire : Int) (data : DemoData) : RenderResult :=
  if acquire ≠ P.FuriStatusOk then
    { data := data, canvas := [], released := 0 }
  else
    let c0 := [CanvasOp.set_font P.FontPrimary]
    if data.address = P.TEA5767_ADR then
      let c1 := c0 ++ [draw_centered P 20 "FOUND I2C DEVICE"]
      let d1 : DemoData := { data with buffer := address_line data.address }
      let c2 := c1 ++ [draw_centered P 30 d1.buffer]
      let c3 :=
        if d1.state = RadioState.RadioStateFound then
          c2 ++ [draw_centered P 40 "FOUND DEVICE"]
        else if d1.state = RadioState.RadioStateWriteSuccess then
          c2 ++ [draw_centered P 40 "WRITE SUCCESS"]
        else if d1.state = RadioState.RadioStateReadSuccess then
          c2 ++ [draw_centered P 40 "READ SUCCESS"]
        else if d1.state = RadioState.RadioStateWriteReadSuccess then
          c2 ++ [draw_centered P 40 "WRITE/READ SUCCESS"]
        else c2
      let d2 : DemoData := { d1 with buffer := registers_line d1.registers }
      let c4 := c3 ++ [draw_centered P 50 d2.buffer]
      { data := d2, canvas := c4, released := 1 }
    else
      let c1 := c0 ++ [draw_centered P 20 "I2C NOT FOUND"]
      let c2 := c1 ++ [draw_centered P 30 "pin15=SDA. pin16=SCL"]
      let c3 := c2 ++ [draw_centered P 40 "pin9=VCC. pin18=GND"]
      { data := data, canvas := c3, released := 1 }

/-! ## radio_app (radio.c, lines 138-203) -/

/-- The record as `radio_app` sets it up (lines 143-152); `furi_string_alloc`
yields the empty string and `registers[3]` is a byte. -/
def initial_data (P : Platform) : DemoData :=
  { buffer := "",
    address := 0,
    state := RadioState.RadioStateNotFound,
    value := 0,
    registers :=
      { r0 := 0x00, r1 := 0x00, r2 := 0xB0,
        r3 := Fin.ofNat (P.REG_4_XTAL ||| P.REG_4_SMUTE), r4 := 0x00 } }

/-- The variables of the event loop: the flag `processing`, the shared record, the
driver state, and the number of `view_port_update` calls made so far. -/
structure AppState (σ : Type) where
  processing : Bool
  data : DemoData
  drv : σ
  updates : Nat

/-- The state on entry to the `do` loop (line 167). -/
def initial_state {σ : Type} (P : Platform) (s : σ) : AppState σ :=
  { processing := true, data := initial_data P, drv := s, updates := 0 }

/-- One pass through the body of the `do ... while(processing)` loop (lines
169-188).  `status` is what `furi_message_queue_get` returned and `event` what it
stored. -/
def radio_app_body {σ : Type} (P : Platform) (D : Driver σ) (status : Int) (event : DemoEvent)
    (st : AppState σ) : AppState σ :=
  if status = P.FuriStatusOk then
    let st1 : AppState σ :=
      match event.type with
      | DemoEventType.DemoEventTypeKey =>
        if event.input.type = P.InputTypeShort ∧ event.input.key = P.InputKeyBack then
          { st with processing := false }
        else st
      | DemoEventType.DemoEventTypeTick =>
        let r := update_i2c_status P D st.drv st.data
        { st with data := r.data, drv := r.drv }
    { st1 with updates := st1.updates + 1 }
  else
    { st with processing := false }

/-- The `do ... while(processing)` loop run on the queue results it receives, in
order; it stops at the first pass that clears `processing`. -/
def radio_app_loop {σ : Type} (P : Platform) (D : Driver σ) :
    List (Int × DemoEvent) → AppState σ → AppState σ
  | [], st => st
  | (status, event) :: rest, st =>
    let st1 := radio_app_body P D status event st
    if st1.processing then radio_app_loop P D rest st1 else st1

/-! ## Sample platform and driver, for concrete instances -/

/-- A platform with the chip at bus address 0xC0. -/
def samplePlatform : Platform :=
  { TEA5767_ADR := 0xC0, REG_4_XTAL := 0x10, REG_4_SMUTE := 0x08, FuriStatusOk := 0,
    InputTypeShort := 2, InputKeyBack := 5, FontPrimary := 0, AlignCenter := 2 }

/-- A driver whose four calls answer with the four given flags; its state counts
the calls made, and each call stamps one register byte. -/
def sampleDriver (present initOk setOk getOk : Bool) : Driver Nat :=
  { tea5767_is_device_ready := fun n => { ok := present, drv := n + 1 },
    tea5767_init := fun r n => { ok := initOk, registers := { r with r0 := 0x11 }, drv := n + 1 },
    tea5767_set_frequency := fun r _ n =>
      { ok := setOk, registers := { r with r1 := 0x2E }, drv := n + 1 },
    tea5767_get_frequency := fun r _ n =>
      { ok := getOk, registers := { r with r4 := 0xAB }, value := 9530, drv := n + 1 } }

/-- A record unlike the initial one in every field. -/
def sampleData : DemoData :=
  { buffer := "stale", address := 7, state := RadioState.RadioStateWriteReadSuccess, value := 42,
    registers := { r0 := 1, r1 := 2, r2 := 3, r3 := 4, r4 := 5 } }

/-! ## The driver's answers during one tick

`update_i2c_status` hands each driver call the register bytes and the driver state
the previous call left.  The four definitions below name the answer of each call
when it is made from record `d` and driver state `s`. -/

/-- Answer of `tea5767_is_device_ready()` on a tick started in driver state `s`. -/
def tick_ready {σ : Type} (D : Driver σ) (s : σ) : ReadyResult σ :=
  D.tea5767_is_device_ready s

/-- Answer of `tea5767_init(data->registers)`, called after the presence check. -/
def tick_init {σ : Type} (D : Driver σ) (s : σ) (d : DemoData) : RegsResult σ :=
  D.tea5767_init d.registers (tick_ready D s).drv

/-- Answer of `tea5767_set_frequency(data->registers, 9530)`, called after init. -/
def tick_set {σ : Type} (D : Driver σ) (s : σ) (d : DemoData) : RegsResult σ :=
  D.tea5767_set_frequency (tick_init D s d).registers 9530 (tick_init D s d).drv

/-- Answer of `tea5767_get_frequency(data->registers, &data->value)`, called after
set-frequency with `data->value` just cleared. -/
def tick_get {σ : Type} (D : Driver σ) (s : σ) (d : DemoData) : FreqResult σ :=
  D.tea5767_get_frequency (tick_set D s d).registers 0 (tick_set D s d).drv

/-! ## Reachable application states -/

/-- The `DemoEvent` that `tick_callback` enqueues; its `input` field is left
zero-initialised by the designated initialiser. -/
def tick_event : DemoEvent :=
  { type := DemoEventType.DemoEventTypeTick, input := { type := 0, key := 0 } }

/-- States the application can be in: the state on entry to the loop, then any
number of loop passes (each with any queue result, taken while `processing`
holds) and of draw callbacks (each with any lock outcome) in any order. -/
inductive Reachable {σ : Type} (P : Platform) (D : Driver σ) (s0 : σ) : AppState σ → Prop
  | start : Reachable P D s0 (initial_state P s0)
  | body (status : Int) (event : DemoEvent) {st : AppState σ} :
      Reachable P D s0 st → st.processing = true →
      Reachable P D s0 (radio_app_body P D status event st)
  | render (acquire : Int) {st : AppState σ} :
      Reachable P D s0 st →
      Reachable P D s0 { st with data := (render_callback P acquire st.data).data }

/-- The relation between address and status that the updater maintains. -/
def AddressStatusInv (P : Platform) (d : DemoData) : Prop :=
  (d.address = 0 ∧ d.state = RadioState.RadioStateNotFound) ∨
  (d.address = P.TEA5767_ADR ∧
    (d.state = RadioState.RadioStateFound ∨ d.state = RadioState.RadioStateWriteSuccess ∨
      d.state = RadioState.RadioStateReadSuccess))

/-! ## Reading hexadecimal text

What it means for a drawn string to show a number in hex, stated by reading the
string back rather than through the formatting functions above. -/

/-- The value of one hexadecimal digit, of either case. -/
def hex_digit_value (c : Char) : Option Nat :=
  if '0' ≤ c ∧ c ≤ '9' then some (c.toNat - '0'.toNat)
  else if 'a' ≤ c ∧ c ≤ 'f' then some (c.toNat - 'a'.toNat + 10)
  else if 'A' ≤ c ∧ c ≤ 'F' then some (c.toNat - 'A'.toNat + 10)
  else none

/-- Appends one digit to a number read so far, most significant digit first. -/
def hex_step (acc : Option Nat) (c : Char) : Option Nat :=
  match acc, hex_digit_value c with
  | some a, some v => some (16 * a + v)
  | _, _ => none

/-- The number a string of hexadecimal digits denotes; `none` when one of its
characters is not a hexadecimal digit. -/
def hex_value (s : String) : Option Nat :=
  s.data.foldl hex_step (some 0)

/-- The string `s` is the text `Address 0x` followed by at least two hexadecimal
digits that denote the `int` `a` read as a 32-bit unsigned. -/
def IsAddressText (s : String) (a : Int) : Prop :=
  ∃ h : String, s = "Address 0x" ++ h ∧ 2 ≤ h.length ∧ hex_value h = some (a % 2 ^ 32).toNat

/-- The string `s` is the text `registers: ` followed by five groups of exactly two
hexadecimal digits, the groups denoting the five bytes of `r` in index order. -/
def IsRegistersText (s : String) (r : Registers) : Prop :=
  ∃ b0 b1 b2 b3 b4 : String, s = "registers: " ++ b0 ++ b1 ++ b2 ++ b3 ++ b4 ∧
    (b0.length = 2 ∧ hex_value b0 = some r.r0.val) ∧
    (b1.length = 2 ∧ hex_value b1 = some r.r1.val) ∧
    (b2.length = 2 ∧ hex_value b2 = some r.r2.val) ∧
    (b3.length = 2 ∧ hex_value b3 = some r.r3.val) ∧
    (b4.length = 2 ∧ hex_value b4 = some r.r4.val)

/-! ## Helper lemmas -/

theorem update_inv {σ : Type} (P : Platform) (D : Driver σ) (s : σ) (d : DemoData) :
    AddressStatusInv P (update_i2c_status P D s d).data := by
  unfold AddressStatusInv update_i2c_status
  simp only
  split_ifs <;> simp

theorem render_keeps_fields (P : Platform) (acquire : Int) (d : DemoData) :
    (render_callback P acquire d).data.address = d.address ∧
    (render_callback P acquire d).data.state = d.state ∧
    (render_callback P acquire d).data.value = d.value ∧
    (render_callback P acquire d).data.registers = d.registers := by
  unfold render_callback
  simp only
  split_ifs <;> simp

theorem body_inv {σ : Type} (P : Platform) (D : Driver σ) (status : Int) (event : DemoEvent)
    (st : AppState σ) (h : AddressStatusInv P st.data) :
    AddressStatusInv P (radio_app_body P D status event st).data := by
  unfold radio_app_body
  by_cases hs : status = P.FuriStatusOk
  · rw [if_pos hs]
    cases hev : event.type with
    | DemoEventTypeTick => simpa using update_inv P D st.drv st.data
    | DemoEventTypeKey =>
      by_cases hk : event.input.type = P.InputTypeShort ∧ event.input.key = P.InputKeyBack
      · simpa [hk] using h
      · simpa [hk] using h
  · rw [if_neg hs]
    simpa using h

theorem hex_digit_lower : ∀ k, k < 16 → hex_digit_value (Nat.digitChar k) = some k := by
  decide

theorem hex_digit_upper :
    ∀ k, k < 16 → hex_digit_value (Char.toUpper (Nat.digitChar k)) = some k := by
  decide

theorem hex_core (f : Char → Char)
    (hf : ∀ k, k < 16 → hex_digit_value (f (Nat.digitChar k)) = some k) :
    ∀ (fuel n : Nat) (ds : List Char), n < fuel →
      ((Nat.toDigitsCore 16 fuel n ds).map f).foldl hex_step (some 0) =
        (ds.map f).foldl hex_step (some n) := by
  intro fuel
  induction fuel with
  | zero => intro n ds h; omega
  | succ fuel ih =>
    intro n ds h
    have hd := hf (n % 16) (Nat.mod_lt _ (by norm_num))
    simp only [Nat.toDigitsCore]
    by_cases h0 : n / 16 = 0
    · simp only [h0, if_true, List.map_cons, List.foldl_cons, hex_step, hd]
      have : n % 16 = n := by omega
      simp [this]
    · simp only [h0, if_false]
      rw [ih (n / 16) _ (by omega)]
      simp only [List.map_cons, List.foldl_cons, hex_step, hd]
      have : 16 * (n / 16) + n % 16 = n := Nat.div_add_mod n 16
      rw [this]

theorem hex_pad (cs : List Char) :
    (pad02 cs).foldl hex_step (some 0) = cs.foldl hex_step (some 0) ∧ 2 ≤ (pad02 cs).length := by
  unfold pad02
  constructor
  · rcases Nat.lt_or_ge cs.length 1 with h | h
    · have : 2 - cs.length = 2 := by omega
      rw [this]; rfl
    · rcases Nat.lt_or_ge cs.length 2 with h2 | h2
      · have : 2 - cs.length = 1 := by omega
        rw [this]; rfl
      · have : 2 - cs.length = 0 := by omega
        rw [this]; rfl
  · simp; omega

/-! ## Status updater -/

/-- C1: on a tick where `tea5767_is_device_ready` answers false, whatever the
record held before, `update_i2c_status` leaves the status `RadioStateNotFound`
and the address 0. -/
theorem update_device_absent {σ : Type} (P : Platform) (D : Driver σ) (s : σ) (d : DemoData)
    (h : (D.tea5767_is_device_ready s).ok = false) :
    (update_i2c_status P D s d).data.state = RadioState.RadioStateNotFound ∧
    (update_i2c_status P D s d).data.address = 0 := by
  simp [update_i2c_status, h]

theorem update_device_absent_witness :
    ((sampleDriver false true true true).tea5767_is_device_ready 0).ok = false ∧
    (update_i2c_status samplePlatform (sampleDriver false true true true) 0 sampleData).data.state
      = RadioState.RadioStateNotFound ∧
    (update_i2c_status samplePlatform (sampleDriver false true true true) 0 sampleData).data.address
      = 0 :=
  ⟨by decide, update_device_absent samplePlatform (sampleDriver false true true true) 0 sampleData
    (by decide)⟩

/-- C2: on a tick where the presence check, `tea5767_init`,
`tea5767_set_frequency` (called with 9530) and `tea5767_get_frequency` all answer
true, `update_i2c_status` leaves the status `RadioStateReadSuccess`, and the
record's registers are the bytes `tea5767_get_frequency` left, it having received
those of set-frequency, which received those of init, which received the
record's. -/
theorem update_all_steps_ok {σ : Type} (P : Platform) (D : Driver σ) (s : σ) (d : DemoData)
    (h1 : (tick_ready D s).ok = true) (h2 : (tick_init D s d).ok = true)
    (h3 : (tick_set D s d).ok = true) (h4 : (tick_get D s d).ok = true) :
    (update_i2c_status P D s d).data.state = RadioState.RadioStateReadSuccess ∧
    (update_i2c_status P D s d).data.registers = (tick_get D s d).registers ∧
    (update_i2c_status P D s d).calls =
      [DriverCall.is_device_ready, DriverCall.init d.registers,
       DriverCall.set_frequency (tick_init D s d).registers 9530,
       DriverCall.get_frequency (tick_set D s d).registers 0] := by
  simp only [tick_get, tick_set, tick_init, tick_ready] at h1 h2 h3 h4 ⊢
  simp [update_i2c_status, FIX_STATION, h1, h2, h3, h4]

theorem update_all_steps_ok_witness :
    (update_i2c_status samplePlatform (sampleDriver true true true true) 0 sampleData).data.state
      = RadioState.RadioStateReadSuccess ∧
    (update_i2c_status samplePlatform (sampleDriver true true true true) 0 sampleData).data.registers
      = (tick_get (sampleDriver true true true true) 0 sampleData).registers ∧
    (update_i2c_status samplePlatform (sampleDriver true true true true) 0 sampleData).calls =
      [DriverCall.is_device_ready, DriverCall.init sampleData.registers,
       DriverCall.set_frequency (tick_init (sampleDriver true true true true) 0 sampleData).registers
         9530,
       DriverCall.get_frequency (tick_set (sampleDriver true true true true) 0 sampleData).registers
         0] :=
  update_all_steps_ok samplePlatform (sampleDriver true true true true) 0 sampleData
    (by decide) (by decide) (by decide) (by decide)

/-- C9: on a tick where the device is present and a later driver step fails, the
address is `TEA5767_ADR` and the status is that of the last step that succeeded:
`RadioStateFound` when `tea5767_init` fails, `RadioStateWriteSuccess` when init
succeeds and `tea5767_set_frequency` fails, `RadioStateWriteSuccess` when
set-frequency succeeds and `tea5767_get_frequency` fails.  The driver calls made
end with the failing one, and the driver is left in the state that call left. -/
theorem update_step_failure {σ : Type} (P : Platform) (D : Driver σ) (s : σ) (d : DemoData)
    (h1 : (tick_ready D s).ok = true) :
    ((tick_init D s d).ok = false →
      (update_i2c_status P D s d).data.state = RadioState.RadioStateFound ∧
      (update_i2c_status P D s d).data.address = P.TEA5767_ADR ∧
      (update_i2c_status P D s d).calls =
        [DriverCall.is_device_ready, DriverCall.init d.registers] ∧
      (update_i2c_status P D s d).drv = (tick_init D s d).drv) ∧
    ((tick_init D s d).ok = true → (tick_set D s d).ok = false →
      (update_i2c_status P D s d).data.state = RadioState.RadioStateWriteSuccess ∧
      (update_i2c_status P D s d).data.address = P.TEA5767_ADR ∧
      (update_i2c_status P D s d).calls =
        [DriverCall.is_device_ready, DriverCall.init d.registers,
         DriverCall.set_frequency (tick_init D s d).registers 9530] ∧
      (update_i2c_status P D s d).drv = (tick_set D s d).drv) ∧
    ((tick_init D s d).ok = true → (tick_set D s d).ok = true → (tick_get D s d).ok = false →
      (update_i2c_status P D s d).data.state = RadioState.RadioStateWriteSuccess ∧
      (update_i2c_status P D s d).data.address = P.TEA5767_ADR ∧
      (update_i2c_status P D s d).calls =
        [DriverCall.is_device_ready, DriverCall.init d.registers,
         DriverCall.set_frequency (tick_init D s d).registers 9530,
         DriverCall.get_frequency (tick_set D s d).registers 0] ∧
      (update_i2c_status P D s d).drv = (tick_get D s d).drv) := by
  simp only [tick_get, tick_set, tick_init, tick_ready] at h1 ⊢
  refine ⟨fun h2 => ?_, fun h2 h3 => ?_, fun h2 h3 h4 => ?_⟩
  · simp [update_i2c_status, h1, h2]
  · simp [update_i2c_status, FIX_STATION, h1, h2, h3]
  · simp [update_i2c_status, FIX_STATION, h1, h2, h3, h4]

theorem update_step_failure_witness :
    (update_i2c_status samplePlatform (sampleDriver true false true true) 0 sampleData).data.state
      = RadioState.RadioStateFound ∧
    (update_i2c_status samplePlatform (sampleDriver true true false true) 0 sampleData).data.state
      = RadioState.RadioStateWriteSuccess ∧
    (update_i2c_status samplePlatform (sampleDriver true true false true) 0 sampleData).calls.length
      = 3 ∧
    (update_i2c_status samplePlatform (sampleDriver true true true false) 0 sampleData).data.state
      = RadioState.RadioStateWriteSuccess :=
  ⟨((update_step_failure samplePlatform (sampleDriver true false true true) 0 sampleData
      (by decide)).1 (by decide)).1,
   ((update_step_failure samplePlatform (sampleDriver true true false true) 0 sampleData
      (by decide)).2.1 (by decide) (by decide)).1,
   by
    rw [((update_step_failure samplePlatform (sampleDriver true true false true) 0 sampleData
      (by decide)).2.1 (by decide) (by decide)).2.2.1]
    rfl,
   ((update_step_failure samplePlatform (sampleDriver true true true false) 0 sampleData
      (by decide)).2.2 (by decide) (by decide) (by decide)).1⟩

/-! ## Event loop -/

/-- C3: a loop pass that is entered with `processing` set and dequeues an event
successfully clears `processing` exactly when the event is a Key event with input
type `InputTypeShort` and key `InputKeyBack`; every other Key event and every
Tick event, whatever its input payload, leaves it set. -/
theorem body_stops_iff_short_back {σ : Type} (P : Platform) (D : Driver σ) (event : DemoEvent)
    (st : AppState σ) (h : st.processing = true) :
    (radio_app_body P D P.FuriStatusOk event st).processing = false ↔
      (event.type = DemoEventType.DemoEventTypeKey ∧ event.input.type = P.InputTypeShort ∧
        event.input.key = P.InputKeyBack) := by
  unfold radio_app_body
  rw [if_pos rfl]
  cases hev : event.type with
  | DemoEventTypeTick => simp [h]
  | DemoEventTypeKey =>
    by_cases hk : event.input.type = P.InputTypeShort ∧ event.input.key = P.InputKeyBack
    · simp [hk]
    · simp only [if_neg hk, h]
      simpa using hk

theorem body_stops_iff_short_back_witness :
    (initial_state samplePlatform (0 : Nat)).processing = true ∧
    (radio_app_body samplePlatform (sampleDriver true true true true) samplePlatform.FuriStatusOk
      { type := DemoEventType.DemoEventTypeKey, input := { type := 2, key := 5 } }
      (initial_state samplePlatform 0)).processing = false :=
  ⟨rfl, (body_stops_iff_short_back samplePlatform (sampleDriver true true true true)
    { type := DemoEventType.DemoEventTypeKey, input := { type := 2, key := 5 } }
    (initial_state samplePlatform 0) rfl).2 (by decide)⟩

/-- C10: in every reachable application state the record has either address 0 with
status `RadioStateNotFound`, or address `TEA5767_ADR` with status
`RadioStateFound`, `RadioStateWriteSuccess` or `RadioStateReadSuccess`; the status
is never `RadioStateWriteReadSuccess`. -/
theorem reachable_address_status {σ : Type} (P : Platform) (D : Driver σ) (s0 : σ)
    (st : AppState σ) (h : Reachable P D s0 st) :
    ((st.data.address = 0 ∧ st.data.state = RadioState.RadioStateNotFound) ∨
     (st.data.address = P.TEA5767_ADR ∧
       (st.data.state = RadioState.RadioStateFound ∨
        st.data.state = RadioState.RadioStateWriteSuccess ∨
        st.data.state = RadioState.RadioStateReadSuccess))) ∧
    st.data.state ≠ RadioState.RadioStateWriteReadSuccess := by
  have inv : AddressStatusInv P st.data := by
    induction h with
    | start => exact Or.inl ⟨rfl, rfl⟩
    | body status event _ _ ih => exact body_inv P D status event _ ih
    | render acquire _ ih =>
      have k := render_keeps_fields P acquire ‹AppState σ›.data
      unfold AddressStatusInv at ih ⊢
      simpa [k.1, k.2.1] using ih
  refine ⟨inv, ?_⟩
  rcases inv with ⟨_, h2⟩ | ⟨_, h2 | h2 | h2⟩ <;> simp [h2]

theorem reachable_address_status_witness :
    Reachable samplePlatform (sampleDriver true true true true) 0
      (radio_app_body samplePlatform (sampleDriver true true true true) 0 tick_event
        (initial_state samplePlatform 0)) ∧
    (radio_app_body samplePlatform (sampleDriver true true true true) 0 tick_event
      (initial_state samplePlatform 0)).data.address = 0xC0 ∧
    (radio_app_body samplePlatform (sampleDriver true true true true) 0 tick_event
      (initial_state samplePlatform 0)).data.state ≠ RadioState.RadioStateWriteReadSuccess :=
  ⟨Reachable.body 0 tick_event Reachable.start rfl, by decide,
   (reachable_address_status samplePlatform (sampleDriver true true true true) 0 _
    (Reachable.body 0 tick_event Reachable.start rfl)).2⟩

/-! ## Draw callback -/

/-- C4, as stated, fails.  Start from the record `radio_app` sets up, run one tick
on which every driver step succeeds, then one draw callback that gets the lock:
the text buffer is empty before the callback and holds the register line after
it. -/
theorem render_changes_buffer :
    (update_i2c_status samplePlatform (sampleDriver true true true true) 0
      (initial_data samplePlatform)).data.buffer = "" ∧
    (render_callback samplePlatform samplePlatform.FuriStatusOk
      (update_i2c_status samplePlatform (sampleDriver true true true true) 0
        (initial_data samplePlatform)).data).data.buffer = "registers: 112EB018AB" ∧
    (render_callback samplePlatform samplePlatform.FuriStatusOk
      (update_i2c_status samplePlatform (sampleDriver true true true true) 0
        (initial_data samplePlatform)).data).data ≠
      (update_i2c_status samplePlatform (sampleDriver true true true true) 0
        (initial_data samplePlatform)).data := by
  decide

/-- C4, amended: for every record and every lock outcome `render_callback` leaves
the address, the status, the value and the five register bytes as they were.  The
text buffer is as it was when the lock is not acquired or the address is not
`TEA5767_ADR`; otherwise it ends holding the formatted register line. -/
theorem render_frame (P : Platform) (acquire : Int) (d : DemoData) :
    (render_callback P acquire d).data.address = d.address ∧
    (render_callback P acquire d).data.state = d.state ∧
    (render_callback P acquire d).data.value = d.value ∧
    (render_callback P acquire d).data.registers = d.registers ∧
    (render_callback P acquire d).data.buffer =
      if acquire = P.FuriStatusOk ∧ d.address = P.TEA5767_ADR then registers_line d.registers
      else d.buffer := by
  unfold render_callback
  by_cases ha : acquire = P.FuriStatusOk
  · by_cases hd : d.address = P.TEA5767_ADR
    · simp [ha, hd]
    · simp [ha, hd]
  · simp [ha]

/-- C5: two draw callbacks in a row that both get the lock, the second run on the
record the first one left, make the same canvas calls; and the canvas calls of a
draw callback do not depend on what the text buffer held on entry. -/
theorem render_twice_same_canvas (P : Platform) (d : DemoData) :
    (render_callback P P.FuriStatusOk (render_callback P P.FuriStatusOk d).data).canvas =
      (render_callback P P.FuriStatusOk d).canvas ∧
    ∀ b : String, (render_callback P P.FuriStatusOk { d with buffer := b }).canvas =
      (render_callback P P.FuriStatusOk d).canvas := by
  unfold render_callback
  by_cases hd : d.address = P.TEA5767_ADR
  · simp [hd]
  · simp [hd]

/-- C6: when the lock acquisition does not return `FuriStatusOk`, `render_callback`
makes no canvas call, returns the record as it was, and does not release the
lock. -/
theorem render_lock_not_acquired (P : Platform) (acquire : Int) (d : DemoData)
    (h : acquire ≠ P.FuriStatusOk) :
    (render_callback P acquire d).canvas = [] ∧
    (render_callback P acquire d).data = d ∧
    (render_callback P acquire d).released = 0 := by
  simp [render_callback, h]

theorem render_lock_not_acquired_witness :
    (3 : Int) ≠ samplePlatform.FuriStatusOk ∧
    (render_callback samplePlatform 3 sampleData).canvas = [] ∧
    (render_callback samplePlatform 3 sampleData).data = sampleData ∧
    (render_callback samplePlatform 3 sampleData).released = 0 :=
  ⟨by decide, render_lock_not_acquired samplePlatform 3 sampleData (by decide)⟩

/-- C7: a draw callback that gets the lock, run on the record `update_i2c_status`
left, makes the following canvas calls, for every prior record and every
combination of driver answers.  After a successful presence check: the font, then
exactly four text lines, namely the title, the address line, one status label and
the register line.  The label is FOUND DEVICE when init fails, WRITE SUCCESS when
init succeeds and set-frequency or get-frequency fails, READ SUCCESS when all
succeed; the register line shows the bytes the last driver call made left.  After
a failed presence check, the driver's bus address `TEA5767_ADR` being nonzero: the
font, then the three wiring-hint lines and nothing else.  The address line reads
back as `TEA5767_ADR` in hex and every register line reads back as its five bytes
in hex, two digits each. -/
theorem render_after_update {σ : Type} (P : Platform) (D : Driver σ) (s : σ) (d : DemoData) :
    ((tick_ready D s).ok = true → (tick_init D s d).ok = false →
      (render_callback P P.FuriStatusOk (update_i2c_status P D s d).data).canvas =
        [CanvasOp.set_font P.FontPrimary,
         CanvasOp.draw_str_aligned 64 20 P.AlignCenter P.AlignCenter "FOUND I2C DEVICE",
         CanvasOp.draw_str_aligned 64 30 P.AlignCenter P.AlignCenter
           ("Address 0x" ++ fmt_02x P.TEA5767_ADR),
         CanvasOp.draw_str_aligned 64 40 P.AlignCenter P.AlignCenter "FOUND DEVICE",
         CanvasOp.draw_str_aligned 64 50 P.AlignCenter P.AlignCenter
           (registers_line (tick_init D s d).registers)]) ∧
    ((tick_ready D s).ok = true → (tick_init D s d).ok = true → (tick_set D s d).ok = false →
      (render_callback P P.FuriStatusOk (update_i2c_status P D s d).data).canvas =
        [CanvasOp.set_font P.FontPrimary,
         CanvasOp.draw_str_aligned 64 20 P.AlignCenter P.AlignCenter "FOUND I2C DEVICE",
         CanvasOp.draw_str_aligned 64 30 P.AlignCenter P.AlignCenter
           ("Address 0x" ++ fmt_02x P.TEA5767_ADR),
         CanvasOp.draw_str_aligned 64 40 P.AlignCenter P.AlignCenter "WRITE SUCCESS",
         CanvasOp.draw_str_aligned 64 50 P.AlignCenter P.AlignCenter
           (registers_line (tick_set D s d).registers)]) ∧
    ((tick_ready D s).ok = true → (tick_init D s d).ok = true → (tick_set D s d).ok = true →
      (tick_get D s d).ok = false →
      (render_callback P P.FuriStatusOk (update_i2c_status P D s d).data).canvas =
        [CanvasOp.set_font P.FontPrimary,
         CanvasOp.draw_str_aligned 64 20 P.AlignCenter P.AlignCenter "FOUND I2C DEVICE",
         CanvasOp.draw_str_aligned 64 30 P.AlignCenter P.AlignCenter
           ("Address 0x" ++ fmt_02x P.TEA5767_ADR),
         CanvasOp.draw_str_aligned 64 40 P.AlignCenter P.AlignCenter "WRITE SUCCESS",
         CanvasOp.draw_str_aligned 64 50 P.AlignCenter P.AlignCenter
           (registers_line (tick_get D s d).registers)]) ∧
    ((tick_ready D s).ok = true → (tick_init D s d).ok = true → (tick_set D s d).ok = true →
      (tick_get D s d).ok = true →
      (render_callback P P.FuriStatusOk (update_i2c_status P D s d).data).canvas =
        [CanvasOp.set_font P.FontPrimary,
         CanvasOp.draw_str_aligned 64 20 P.AlignCenter P.AlignCenter "FOUND I2C DEVICE",
         CanvasOp.draw_str_aligned 64 30 P.AlignCenter P.AlignCenter
           ("Address 0x" ++ fmt_02x P.TEA5767_ADR),
         CanvasOp.draw_str_aligned 64 40 P.AlignCenter P.AlignCenter "READ SUCCESS",
         CanvasOp.draw_str_aligned 64 50 P.AlignCenter P.AlignCenter
           (registers_line (tick_get D s d).registers)]) ∧
    ((tick_ready D s).ok = false → P.TEA5767_ADR ≠ 0 →
      (render_callback P P.FuriStatusOk (update_i2c_status P D s d).data).canvas =
        [CanvasOp.set_font P.FontPrimary,
         CanvasOp.draw_str_aligned 64 20 P.AlignCenter P.AlignCenter "I2C NOT FOUND",
         CanvasOp.draw_str_aligned 64 30 P.AlignCenter P.AlignCenter "pin15=SDA. pin16=SCL",
         CanvasOp.draw_str_aligned 64 40 P.AlignCenter P.AlignCenter "pin9=VCC. pin18=GND"]) ∧
    IsAddressText ("Address 0x" ++ fmt_02x P.TEA5767_ADR) P.TEA5767_ADR ∧
    ∀ r : Registers, IsRegistersText (registers_line r) r := by
  have hx : 2 ≤ (fmt_02x P.TEA5767_ADR).length ∧
      hex_value (fmt_02x P.TEA5767_ADR) = some (P.TEA5767_ADR % 2 ^ 32).toNat := by
    unfold hex_value fmt_02x
    refine ⟨(hex_pad _).2, ?_⟩
    show (pad02 _).foldl hex_step (some 0) = _
    rw [(hex_pad _).1]
    have := hex_core id (by simpa using hex_digit_lower) ((P.TEA5767_ADR % 2 ^ 32).toNat + 1)
      (P.TEA5767_ADR % 2 ^ 32).toNat [] (by omega)
    simpa [Nat.toDigits] using this
  have hX : ∀ b : Fin 256, (fmt_02X b).length = 2 ∧ hex_value (fmt_02X b) = some b.val := by
    intro b
    unfold hex_value fmt_02X
    constructor
    · have hlen : (Nat.toDigitsCore 16 (b.val + 1) b.val []).length ≤ 2 :=
        Nat.toDigitsCore_length 16 (by norm_num) (b.val + 1) b.val 2
          (by have := b.isLt; omega) (by norm_num)
      simp only [String.length, pad02, Nat.toDigits, List.length_append, List.length_replicate,
        List.length_map]
      omega
    · show (pad02 _).foldl hex_step (some 0) = _
      rw [(hex_pad _).1]
      have := hex_core Char.toUpper hex_digit_upper (b.val + 1) b.val [] (by omega)
      simpa [Nat.toDigits] using this
  simp only [tick_get, tick_set, tick_init, tick_ready]
  refine ⟨fun h1 h2 => ?_, fun h1 h2 h3 => ?_, fun h1 h2 h3 h4 => ?_, fun h1 h2 h3 h4 => ?_,
    fun h1 hadr => ?_, ⟨fmt_02x P.TEA5767_ADR, rfl, hx⟩,
    fun r => ⟨fmt_02X r.r0, fmt_02X r.r1, fmt_02X r.r2, fmt_02X r.r3, fmt_02X r.r4, rfl,
      hX r.r0, hX r.r1, hX r.r2, hX r.r3, hX r.r4⟩⟩
  · simp [update_i2c_status, render_callback, draw_centered, address_line, h1, h2]
  · simp [update_i2c_status, render_callback, draw_centered, address_line, FIX_STATION,
      h1, h2, h3]
  · simp [update_i2c_status, render_callback, draw_centered, address_line, FIX_STATION,
      h1, h2, h3, h4]
  · simp [update_i2c_status, render_callback, draw_centered, address_line, FIX_STATION,
      h1, h2, h3, h4]
  · simp [update_i2c_status, render_callback, draw_centered, h1, Ne.symm hadr]

theorem render_after_update_witness :
    (render_callback samplePlatform samplePlatform.FuriStatusOk
      (update_i2c_status samplePlatform (sampleDriver true false true true) 0
        sampleData).data).canvas =
      [CanvasOp.set_font 0,
       CanvasOp.draw_str_aligned 64 20 2 2 "FOUND I2C DEVICE",
       CanvasOp.draw_str_aligned 64 30 2 2 "Address 0xc0",
       CanvasOp.draw_str_aligned 64 40 2 2 "FOUND DEVICE",
       CanvasOp.draw_str_aligned 64 50 2 2 "registers: 1102030405"] ∧
    (render_callback samplePlatform samplePlatform.FuriStatusOk
      (update_i2c_status samplePlatform (sampleDriver true true false true) 0
        sampleData).data).canvas =
      [CanvasOp.set_font 0,
       CanvasOp.draw_str_aligned 64 20 2 2 "FOUND I2C DEVICE",
       CanvasOp.draw_str_aligned 64 30 2 2 "Address 0xc0",
       CanvasOp.draw_str_aligned 64 40 2 2 "WRITE SUCCESS",
       CanvasOp.draw_str_aligned 64 50 2 2 "registers: 112E030405"] ∧
    (render_callback samplePlatform samplePlatform.FuriStatusOk
      (update_i2c_status samplePlatform (sampleDriver true true true false) 0
        sampleData).data).canvas =
      [CanvasOp.set_font 0,
       CanvasOp.draw_str_aligned 64 20 2 2 "FOUND I2C DEVICE",
       CanvasOp.draw_str_aligned 64 30 2 2 "Address 0xc0",
       CanvasOp.draw_str_aligned 64 40 2 2 "WRITE SUCCESS",
       CanvasOp.draw_str_aligned 64 50 2 2 "registers: 112E0304AB"] ∧
    (render_callback samplePlatform samplePlatform.FuriStatusOk
      (update_i2c_status samplePlatform (sampleDriver true true true true) 0
        sampleData).data).canvas =
      [CanvasOp.set_font 0,
       CanvasOp.draw_str_aligned 64 20 2 2 "FOUND I2C DEVICE",
       CanvasOp.draw_str_aligned 64 30 2 2 "Address 0xc0",
       CanvasOp.draw_str_aligned 64 40 2 2 "READ SUCCESS",
       CanvasOp.draw_str_aligned 64 50 2 2 "registers: 112E0304AB"] ∧
    samplePlatform.TEA5767_ADR ≠ 0 ∧
    (render_callback samplePlatform samplePlatform.FuriStatusOk
      (update_i2c_status samplePlatform (sampleDriver false true true true) 0
        sampleData).data).canvas =
      [CanvasOp.set_font 0,
       CanvasOp.draw_str_aligned 64 20 2 2 "I2C NOT FOUND",
       CanvasOp.draw_str_aligned 64 30 2 2 "pin15=SDA. pin16=SCL",
       CanvasOp.draw_str_aligned 64 40 2 2 "pin9=VCC. pin18=GND"] ∧
    IsAddressText "Address 0xc0" 0xC0 ∧
    IsRegistersText "registers: 112E0304AB" { r0 := 0x11, r1 := 0x2E, r2 := 3, r3 := 4, r4 := 0xAB } :=
  ⟨(render_after_update samplePlatform (sampleDriver true false true true) 0 sampleData).1
      (by decide) (by decide),
   (render_after_update samplePlatform (sampleDriver true true false true) 0 sampleData).2.1
      (by decide) (by decide) (by decide),
   (render_after_update samplePlatform (sampleDriver true true true false) 0 sampleData).2.2.1
      (by decide) (by decide) (by decide) (by decide),
   (render_after_update samplePlatform (sampleDriver true true true true) 0 sampleData).2.2.2.1
      (by decide) (by decide) (by decide) (by decide),
   by decide,
   (render_after_update samplePlatform (sampleDriver false true true true) 0 sampleData).2.2.2.2.1
      (by decide) (by decide),
   (render_after_update samplePlatform (sampleDriver true true true true) 0
      sampleData).2.2.2.2.2.1,
   (render_after_update samplePlatform (sampleDriver true true true true) 0
      sampleData).2.2.2.2.2.2 { r0 := 0x11, r1 := 0x2E, r2 := 3, r3 := 4, r4 := 0xAB }⟩

/-- Why C7 asks for a nonzero `TEA5767_ADR`: were the constant 0, the address 0 left
by a failed presence check would compare equal to it and the callback would take
the device branch. -/
theorem render_absent_with_zero_adr :
    (render_callback { samplePlatform with TEA5767_ADR := 0 } 0
      (update_i2c_status { samplePlatform with TEA5767_ADR := 0 }
        (sampleDriver false true true true) 0 sampleData).data).canvas =
      [CanvasOp.set_font 0,
       CanvasOp.draw_str_aligned 64 20 2 2 "FOUND I2C DEVICE",
       CanvasOp.draw_str_aligned 64 30 2 2 "Address 0x00",
       CanvasOp.draw_str_aligned 64 50 2 2 "registers: 0102030405"] := by
  decide

/-- C8: after a tick on which the presence check, init, set-frequency(9530) and
get-frequency all answer true, whatever frequency value get-frequency reads out, a
draw callback that gets the lock draws the label READ SUCCESS on the status line
and, on the address line, `TEA5767_ADR` in hex. -/
theorem render_after_full_success {σ : Type} (P : Platform) (D : Driver σ) (s : σ)
    (d : DemoData)
    (h1 : (tick_ready D s).ok = true) (h2 : (tick_init D s d).ok = true)
    (h3 : (tick_set D s d).ok = true) (h4 : (tick_get D s d).ok = true) :
    (render_callback P P.FuriStatusOk (update_i2c_status P D s d).data).canvas =
      [CanvasOp.set_font P.FontPrimary,
       CanvasOp.draw_str_aligned 64 20 P.AlignCenter P.AlignCenter "FOUND I2C DEVICE",
       CanvasOp.draw_str_aligned 64 30 P.AlignCenter P.AlignCenter
         ("Address 0x" ++ fmt_02x P.TEA5767_ADR),
       CanvasOp.draw_str_aligned 64 40 P.AlignCenter P.AlignCenter "READ SUCCESS",
       CanvasOp.draw_str_aligned 64 50 P.AlignCenter P.AlignCenter
         (registers_line (tick_get D s d).registers)] := by
  simp only [tick_get, tick_set, tick_init, tick_ready] at h1 h2 h3 h4 ⊢
  simp [update_i2c_status, render_callback, draw_centered, address_line, FIX_STATION,
    h1, h2, h3, h4]

theorem render_after_full_success_witness :
    (render_callback samplePlatform samplePlatform.FuriStatusOk
      (update_i2c_status samplePlatform (sampleDriver true true true true) 0
        sampleData).data).canvas =
      [CanvasOp.set_font 0,
       CanvasOp.draw_str_aligned 64 20 2 2 "FOUND I2C DEVICE",
       CanvasOp.draw_str_aligned 64 30 2 2 "Address 0xc0",
       CanvasOp.draw_str_aligned 64 40 2 2 "READ SUCCESS",
       CanvasOp.draw_str_aligned 64 50 2 2 "registers: 112E0304AB"] :=
  render_after_full_success samplePlatform (sampleDriver true true true true) 0 sampleData
    (by decide) (by decide) (by decide) (by decide)

end Radio
